import Mathlib

/-!
Shallow embedding of `FacebookConversationAnalysis.py`: a pipeline that
extracts (sender, message, date, time) records from a Facebook HTML export,
caches them via pickle files, and computes aggregate statistics.

Python stdlib behaviour that the script relies on (`datetime.strptime`,
`str.split`, `str.replace`, `sorted`, `itertools.groupby`,
`collections.Counter`, `pickle`) is modelled concretely below, at the level
of detail the script exercises.
-/

namespace FBMsg

/-! ### Calendar arithmetic (Python `datetime` / `dateutil.relativedelta`) -/

/-- A calendar date, as produced by `datetime.strptime(s, '%d/%m/%y')`
(the time component is always midnight there, so we keep only the date). -/
structure DateV where
  year : Nat
  month : Nat
  day : Nat
deriving DecidableEq, Repr

/-- Gregorian leap-year test, as in Python `calendar.isleap`. -/
def isLeap (y : Nat) : Bool :=
  (y % 4 == 0 && y % 100 != 0) || y % 400 == 0

/-- Number of days in month `m` of year `y` (months are 1-based). -/
def daysInMonth (y m : Nat) : Nat :=
  if m = 2 then (if isLeap y then 29 else 28)
  else if m = 4 ∨ m = 6 ∨ m = 9 ∨ m = 11 then 30
  else 31

/-- Days in year `y` strictly before month `m`. -/
def daysBeforeMonth (y m : Nat) : Nat :=
  (List.range (m - 1)).foldl (fun acc i => acc + daysInMonth y (i + 1)) 0

/-- Proleptic-Gregorian ordinal of a date, as Python `date.toordinal`:
day 1 is January 1 of year 1. -/
def toOrdinal (d : DateV) : Nat :=
  365 * (d.year - 1) + (d.year - 1) / 4 - (d.year - 1) / 100 + (d.year - 1) / 400
    + daysBeforeMonth d.year d.month + d.day

/-- The `.days` field of the Python `timedelta` `a - b` for midnight
datetimes: the signed difference of ordinals.  This models
`(last_date - first_date).days` in the script. -/
def deltaDays (a b : DateV) : Int :=
  (toOrdinal a : Int) - (toOrdinal b : Int)

/-- Shift a date by `k` calendar months, clamping the day to the length of
the target month; this is how `dateutil` realises `date + relativedelta
(months=k)` and is used below to model `relativedelta(a, b)`. -/
def addMonthsRD (d : DateV) (k : Int) : DateV :=
  let tot : Int := (d.year : Int) * 12 + ((d.month : Int) - 1) + k
  let y : Nat := (tot / 12).toNat
  let m : Nat := (tot % 12).toNat + 1
  ⟨y, m, min d.day (daysInMonth y m)⟩

/-- Total signed month difference computed by
`dateutil.relativedelta.relativedelta(dt1, dt2)`: the raw year/month
difference, adjusted by one so that `dt2` shifted by the result does not
overshoot `dt1` (for midnight datetimes a single adjustment step suffices,
since a date shifted into an earlier calendar month is always smaller). -/
def rdTotalMonths (dt1 dt2 : DateV) : Int :=
  let m0 : Int := ((dt1.year : Int) - (dt2.year : Int)) * 12
    + ((dt1.month : Int) - (dt2.month : Int))
  if toOrdinal dt2 ≤ toOrdinal dt1 then
    if toOrdinal dt1 < toOrdinal (addMonthsRD dt2 m0) then m0 - 1 else m0
  else
    if toOrdinal (addMonthsRD dt2 m0) < toOrdinal dt1 then m0 + 1 else m0

/-- The `.years` field of `relativedelta(dt1, dt2)`: the total month
difference divided by 12, truncated toward zero (dateutil normalises via
`divmod` on the absolute value, reapplying the sign). -/
def rdYears (dt1 dt2 : DateV) : Int := Int.tdiv (rdTotalMonths dt1 dt2) 12

/-- The `.months` field of `relativedelta(dt1, dt2)`: the total month
difference modulo 12, with the sign of the total (dateutil's
normalisation). -/
def rdMonths (dt1 dt2 : DateV) : Int := Int.tmod (rdTotalMonths dt1 dt2) 12

/-! ### Parsing `%d/%m/%y` (Python `datetime.strptime`) -/

/-- Value of a digit list (most significant first), `none` if empty,
longer than two characters, or containing a non-digit.  Python `strptime`
numeric directives `%d`, `%m`, `%y` each accept one or two digits. -/
def digits2? (cs : List Char) : Option Nat :=
  match cs with
  | [c] => if c.isDigit then some (c.toNat - 48) else none
  | [c, c2] =>
      if c.isDigit && c2.isDigit then some ((c.toNat - 48) * 10 + (c2.toNat - 48))
      else none
  | _ => none

/-- Python `%y` pivot: two-digit years 00–68 map to 2000–2068,
69–99 map to 1969–1999. -/
def pivotYear (yy : Nat) : Nat :=
  if yy ≤ 68 then 2000 + yy else 1900 + yy

/-- Model of `datetime.strptime(s, '%d/%m/%y')` from the script's
`self.date_format`: day `/` month `/` two-digit year, each component one
or two digits, with the resulting date validated (month 1–12, day within
the month) exactly where `strptime` would raise `ValueError`. -/
def strptimeDate (s : String) : Option DateV :=
  match (s.toList.splitOn '/').map digits2? with
  | [some d, some m, some yy] =>
      let y := pivotYear yy
      if 1 ≤ m ∧ m ≤ 12 ∧ 1 ≤ d ∧ d ≤ daysInMonth y m then some ⟨y, m, d⟩
      else none
  | _ => none

/-! ### Parsing the full timestamp format `%A, %d %B %Y at %H:%M %Z` -/

/-- A parsed full timestamp (weekday and timezone are validated during
parsing but are not retained, since `strftime('%d/%m/%y')` and
`strftime('%H:%M')` do not use them). -/
structure FullDate where
  year : Nat
  month : Nat
  day : Nat
  hour : Nat
  minute : Nat
deriving DecidableEq, Repr

/-- English weekday names matched by `%A` (Python `en_US`-style locale). -/
def weekdayNames : List String :=
  ["Monday", "Tuesday", "Wednesday", "Thursday", "Friday", "Saturday", "Sunday"]

/-- English month names matched by `%B`. -/
def monthNames : List String :=
  ["January", "February", "March", "April", "May", "June", "July",
   "August", "September", "October", "November", "December"]

/-- Timezone abbreviations matched by `%Z` (Python accepts `UTC` and `GMT`
unconditionally; after the script strips `"+01"`, the Facebook export's
`UTC+01` suffix becomes `UTC`). -/
def tzNames : List String := ["UTC", "GMT"]

/-- Index (1-based) of a month name, `none` if not an English month name. -/
def monthIndex (s : String) : Option Nat :=
  match monthNames.indexOf? s with
  | some i => some (i + 1)
  | none => none

/-- Value of an exactly-four-digit list, as matched by `%Y`. -/
def digits4? (cs : List Char) : Option Nat :=
  match cs with
  | [a, b, c, d] =>
      if a.isDigit && b.isDigit && c.isDigit && d.isDigit then
        some (((a.toNat - 48) * 10 + (b.toNat - 48)) * 100
          + (c.toNat - 48) * 10 + (d.toNat - 48))
      else none
  | _ => none

/-- Model of `datetime.strptime(s, '%A, %d %B %Y at %H:%M %Z')` from the
script's `self.full_date_format`: weekday name, literal `", "`, one- or
two-digit day, month name, four-digit year, literal `" at "`, one- or
two-digit hour and minute separated by `:`, and a timezone abbreviation.
Range validation (hour, minute, day-in-month) mirrors where `strptime`
raises `ValueError`. -/
def parseFullDate (s : String) : Option FullDate := do
  let cs := s.toList
  let (wd, r1) := cs.span (fun c => c != ',')
  guard (weekdayNames.contains (String.mk wd))
  let r2 ← match r1 with | ',' :: ' ' :: t => some t | _ => none
  let (dds, r3) := r2.span Char.isDigit
  let d ← digits2? dds
  let r4 ← match r3 with | ' ' :: t => some t | _ => none
  let (mon, r5) := r4.span (fun c => c != ' ')
  let m ← monthIndex (String.mk mon)
  let r6 ← match r5 with | ' ' :: t => some t | _ => none
  let (yds, r7) := r6.span Char.isDigit
  let y ← digits4? yds
  let r8 ← match r7 with | ' ' :: 'a' :: 't' :: ' ' :: t => some t | _ => none
  let (hds, r9) := r8.span Char.isDigit
  let hour ← digits2? hds
  let r10 ← match r9 with | ':' :: t => some t | _ => none
  let (mds, r11) := r10.span Char.isDigit
  let minute ← digits2? mds
  let tz ← match r11 with | ' ' :: t => some t | _ => none
  guard (tzNames.contains (String.mk tz))
  guard (hour < 24 && minute < 60 && 1 ≤ d && d ≤ daysInMonth y m)
  pure ⟨y, m, d, hour, minute⟩

/-- Two-digit zero-padded decimal rendering, as `strftime` produces for
`%d`, `%m`, `%y`, `%H`, `%M` (all values involved are below 100). -/
def fmt2 (n : Nat) : String :=
  String.mk [Char.ofNat (48 + n / 10 % 10), Char.ofNat (48 + n % 10)]

/-- Model of `full_date.strftime('%d/%m/%y')` (the script's
`self.date_format`). -/
def strftimeDate (fd : FullDate) : String :=
  fmt2 fd.day ++ "/" ++ fmt2 fd.month ++ "/" ++ fmt2 (fd.year % 100)

/-- Model of `full_date.strftime('%H:%M')` (the script's
`self.time_format`). -/
def strftimeTime (fd : FullDate) : String :=
  fmt2 fd.hour ++ ":" ++ fmt2 fd.minute

/-- Removal of every occurrence of `"+01"`, scanning left to right:
models the script's `.replace("+01", "")` on the timestamp string. -/
def removePlus01 : List Char → List Char
  | '+' :: '0' :: '1' :: rest => removePlus01 rest
  | c :: rest => c :: removePlus01 rest
  | [] => []

/-- The cleaned timestamp string handed to `strptime` by the script. -/
def cleanMeta (s : String) : String := String.mk (removePlus01 s.toList)

/-! ### The document model and `extract_data_from_html_file` -/

/-- One `message` element of the HTML document: the string of its nested
`user` element, the string of its next sibling node (the message body),
and the string of its nested `meta` element (the timestamp). -/
structure MessageElem where
  user : String
  nextSibling : String
  meta : String

/-- One `thread` element: its `message` elements in document order. -/
structure Thread where
  messages : List MessageElem

/-- The parsed document: its `thread` elements in document order. -/
abbrev Document := List Thread

/-- The four parallel output sequences of the extractor. -/
structure Extracted where
  users : List String
  msgs : List String
  dates : List String
  times : List String
deriving DecidableEq, Repr

/-- All message elements of the document, threads concatenated in document
order — the sequence visited by the script's nested `for` loops. -/
def allMessages : Document → List MessageElem
  | [] => []
  | t :: ts => t.messages ++ allMessages ts

/-- The body of the script's nested loops: for each message element,
append sender, body, formatted date and formatted time to the four
accumulating lists; a timestamp that fails to parse raises `ValueError`
and aborts the whole extraction (modelled as `none`). -/
def extractLoop : List MessageElem → Extracted → Option Extracted
  | [], acc => some acc
  | chat :: rest, acc =>
      match parseFullDate (cleanMeta chat.meta) with
      | none => none
      | some full_date =>
          extractLoop rest
            ⟨acc.users ++ [chat.user], acc.msgs ++ [chat.nextSibling],
             acc.dates ++ [strftimeDate full_date],
             acc.times ++ [strftimeTime full_date]⟩

/-- Model of `extract_data_from_html_file`: starting from four empty
lists, process every message element of every thread in document order. -/
def extract_data_from_html_file (doc : Document) : Option Extracted :=
  extractLoop (allMessages doc) ⟨[], [], [], []⟩

/-! ### The pickle cache and `__init__` -/

/-- The pickle store: a map from file name to the list most recently
dumped there (`none` when the file does not exist). -/
abbrev Cache := String → Option (List String)

/-- Model of `save_pickle`: `pickle.dump` overwrites the named file with
the given list. -/
def save_pickle (data : List String) (name : String) (c : Cache) : Cache :=
  fun n => if n = name then some data else c n

/-- Model of `load_pickle`: `pickle.load` returns the list last dumped to
the named file; a missing file raises `FileNotFoundError` (`none`). -/
def load_pickle (name : String) (c : Cache) : Option (List String) := c name

/-- The fixed cache file names from `__init__`. -/
def pickle_file_names : List String :=
  ["pickles/senders.pickle", "pickles/messages.pickle",
   "pickles/dates.pickle", "pickles/times.pickle"]

/-- The state `__init__` leaves on the instance: `self.data` (a list of
four lists) and `self.total_msgs = len(self.data[0])`. -/
structure Pipeline where
  data : List (List String)
  total_msgs : Nat

/-- The `[users, msgs, dates, times]` list returned by the extractor. -/
def Extracted.toLists (e : Extracted) : List (List String) :=
  [e.users, e.msgs, e.dates, e.times]

/-- Model of `__init__`: with `get_data=True` the extractor runs twice —
the first result is dropped, the second becomes `data` and its four lists
are pickled under the fixed names; with `get_data=False` the four lists
are loaded from the pickle files with no consistency check.  Either way
`total_msgs` is the length of `data[0]` (the senders list).  `none`
models an uncaught exception (failed extraction or missing pickle). -/
def initPipeline (doc : Document) (get_data : Bool) (c : Cache) :
    Option (Pipeline × Cache) :=
  if get_data then
    match extract_data_from_html_file doc with
    | none => none
    | some _first_result =>
        match extract_data_from_html_file doc with
        | none => none
        | some data =>
            let c1 := save_pickle data.users "pickles/senders.pickle" c
            let c2 := save_pickle data.msgs "pickles/messages.pickle" c1
            let c3 := save_pickle data.dates "pickles/dates.pickle" c2
            let c4 := save_pickle data.times "pickles/times.pickle" c3
            some (⟨data.toLists, data.users.length⟩, c4)
  else
    match c "pickles/senders.pickle", c "pickles/messages.pickle",
          c "pickles/dates.pickle", c "pickles/times.pickle" with
    | some s, some m, some d, some t => some (⟨[s, m, d, t], s.length⟩, c)
    | _, _, _, _ => none

/-! ### Aggregator functions -/

/-- Python whitespace test used by `str.split()` with no argument. -/
def pyIsSpace (c : Char) : Bool :=
  c == ' ' || c == '\t' || c == '\n' || c == '\r' || c == '\x0b' || c == '\x0c'

/-- Accumulator pass for `str.split()`: maximal runs of non-whitespace
characters, empty runs discarded. -/
def pySplitAux : List Char → List Char → List String
  | [], acc => if acc = [] then [] else [String.mk acc.reverse]
  | c :: cs, acc =>
      if pyIsSpace c then
        if acc = [] then pySplitAux cs []
        else String.mk acc.reverse :: pySplitAux cs []
      else pySplitAux cs (c :: acc)

/-- Model of Python `s.split()` (no separator argument): split on runs of
whitespace, producing no empty tokens. -/
def pySplit (s : String) : List String := pySplitAux s.toList []

/-- Model of `calculate_average_words_per_message`: sum the per-message
`len(msg.split())` counts, then divide by `total_msgs`.  Division by zero
raises `ZeroDivisionError`, modelled as `none`. -/
def calculate_average_words_per_message (msgs : List String)
    (total_msgs : Nat) : Option ℚ :=
  let total_words := (msgs.map (fun m => (pySplit m).length)).sum
  if total_msgs = 0 then none
  else some ((total_words : ℚ) / (total_msgs : ℚ))

/-- Lexicographic order on character lists by code point — Python's
string comparison, used by `sorted`. -/
def charListLe : List Char → List Char → Bool
  | [], _ => true
  | _ :: _, [] => false
  | a :: as, b :: bs =>
      if a.toNat < b.toNat then true
      else if b.toNat < a.toNat then false
      else charListLe as bs

/-- Python string comparison `a <= b`. -/
def strLe (a b : String) : Bool := charListLe a.toList b.toList

/-- Model of `calculate_total_messages_per_user`: `Counter` the senders,
sort the unique senders (Python `sorted` on the dict items orders by
key), and report each with its count and its percentage
`count / total_msgs * 100`.  On an empty senders list the
`zip(*sorted(...))` unpacking raises `ValueError`, modelled as `none`. -/
def calculate_total_messages_per_user (users : List String)
    (total_msgs : Nat) : Option (List (String × Nat × ℚ)) :=
  if users = [] then none
  else
    let unique_users := List.insertionSort (fun a b => strLe a b = true) users.dedup
    some (unique_users.map (fun u =>
      (u, users.count u, ((users.count u : ℚ) / (total_msgs : ℚ)) * 100)))

/-- Possible outcomes of `calculate_average_messages_per_unit_time`,
separating the ways the Python function can terminate: `indexError`
(`dates[-1]` on an empty list), `parseError` (`strptime` raises
`ValueError`), `invalidUnit` (the error message printed for an
unsupported `unit_time`, the function returning `None`), `divByZero`
(`ZeroDivisionError` from a zero interval), and `avg q` (the computed
average, printed). -/
inductive AvgOutcome where
  | indexError
  | parseError
  | invalidUnit
  | divByZero
  | avg (q : ℚ)
deriving DecidableEq, Repr

/-- Model of `calculate_average_messages_per_unit_time`: parse
`dates[-1]` (oldest) and `dates[0]` (newest), form the timedelta and
relativedelta, validate `unit_time`, select the interval, and divide.
The date parsing happens before the `unit_time` check, exactly as in the
source. -/
def calculate_average_messages_per_unit_time (dates : List String)
    (total_msgs : Nat) (unit_time : String) : AvgOutcome :=
  match dates.getLast?, dates.head? with
  | none, _ => .indexError
  | _, none => .indexError
  | some sOldest, some sNewest =>
      match strptimeDate sOldest, strptimeDate sNewest with
      | some first_date, some last_date =>
          if unit_time ∈ ["day", "week", "month", "year"] then
            let interval : Int :=
              if unit_time = "day" then deltaDays last_date first_date
              else if unit_time = "week" then
                -(Int.fdiv (-(deltaDays last_date first_date)) 7)
              else if unit_time = "month" then
                rdYears last_date first_date * 12 + rdMonths last_date first_date
              else rdYears last_date first_date
            if interval = 0 then .divByZero
            else .avg ((total_msgs : ℚ) / (interval : ℚ))
          else .invalidUnit
      | _, _ => .parseError

/-! ### Renderer: the hour-bucketing step of `plot_total_msgs_per_hour` -/

/-- Python `x[:2]`: the first two characters of a time string — the hour
digits of a zero-padded `HH:MM`. -/
def hourKey (s : String) : String := String.mk (s.toList.take 2)

/-- Model of `itertools.groupby(l, key)`: consecutive runs of elements
with equal key, each run paired with its key. -/
def groupByKey (key : String → String) : List String → List (String × List String)
  | [] => []
  | x :: xs =>
      match groupByKey key xs with
      | [] => [(key x, [x])]
      | (k, g) :: rest =>
          if key x = k then (key x, x :: g) :: rest
          else (key x, [x]) :: (k, g) :: rest

/-- The data-shaping half of `plot_total_msgs_per_hour`: sort the time
strings, group consecutive entries by their hour digits, and pair each
hour key with its message count (the `hours` and `msgs_per_hour` lists,
zipped).  The subsequent matplotlib calls only render these values. -/
def plot_total_msgs_per_hour (times : List String) : List (String × Nat) :=
  let sorted_times := List.insertionSort (fun a b => strLe a b = true) times
  (groupByKey hourKey sorted_times).map (fun p => (p.1, p.2.length))

/-! ### Concrete inputs used by the witness theorems -/

/-- A small two-thread document with three messages in total. -/
def exampleDocC1 : Document :=
  [⟨[⟨"Alice", "hello there", "Monday, 16 January 2023 at 09:15 UTC+01"⟩,
     ⟨"Bob", "hi", "Tuesday, 17 January 2023 at 22:05 UTC+01"⟩]⟩,
   ⟨[⟨"Alice", "how are you", "Wednesday, 18 January 2023 at 08:00 UTC+01"⟩]⟩]

/-- A one-thread, one-message document. -/
def exampleDocC9 : Document :=
  [⟨[⟨"Alice", "hi there", "Thursday, 2 February 2023 at 10:30 UTC+01"⟩]⟩]

/-- A pickle store with no files. -/
def emptyCache : Cache := fun _ => none

/-- A pickle store whose four entries deliberately have four different
lengths (1, 2, 0 and 3). -/
def cacheC10 : Cache := fun n =>
  if n = "pickles/senders.pickle" then some ["A"]
  else if n = "pickles/messages.pickle" then some ["one two", "three"]
  else if n = "pickles/dates.pickle" then some []
  else if n = "pickles/times.pickle" then some ["09:15", "10:20", "11:00"]
  else none

/-! ## Theorems -/

/-- Loop invariant of the extractor: a successful run of `extractLoop`
grows each of the four accumulated lists by exactly one entry per
processed message element. -/
theorem extractLoop_lengths : ∀ (chats : List MessageElem) (acc r : Extracted),
    extractLoop chats acc = some r →
    r.users.length = acc.users.length + chats.length ∧
    r.msgs.length = acc.msgs.length + chats.length ∧
    r.dates.length = acc.dates.length + chats.length ∧
    r.times.length = acc.times.length + chats.length := by
  intro chats
  induction chats with
  | nil =>
      intro acc r h
      simp only [extractLoop, Option.some.injEq] at h
      subst h
      simp
  | cons chat rest ih =>
      intro acc r h
      simp only [extractLoop] at h
      split at h
      · exact absurd h (by simp)
      · obtain ⟨h1, h2, h3, h4⟩ := ih _ _ h
        simp only [List.length_append, List.length_cons, List.length_nil] at h1 h2 h3 h4 ⊢
        omega

/-- C1: for every input document, a successful extraction returns four
sequences of equal length, and that common length is the number of
message elements found across all threads of the document. -/
theorem extract_output_lengths (doc : Document) (r : Extracted)
    (h : extract_data_from_html_file doc = some r) :
    r.users.length = (allMessages doc).length ∧
    r.msgs.length = (allMessages doc).length ∧
    r.dates.length = (allMessages doc).length ∧
    r.times.length = (allMessages doc).length := by
  have := extractLoop_lengths (allMessages doc) ⟨[], [], [], []⟩ r h
  simpa using this

/-- Witness for C1 on a concrete three-message document. -/
theorem extract_output_lengths_witness :
    (⟨["Alice", "Bob", "Alice"], ["hello there", "hi", "how are you"],
      ["16/01/23", "17/01/23", "18/01/23"],
      ["09:15", "22:05", "08:00"]⟩ : Extracted).users.length
        = (allMessages exampleDocC1).length ∧
    (⟨["Alice", "Bob", "Alice"], ["hello there", "hi", "how are you"],
      ["16/01/23", "17/01/23", "18/01/23"],
      ["09:15", "22:05", "08:00"]⟩ : Extracted).msgs.length
        = (allMessages exampleDocC1).length ∧
    (⟨["Alice", "Bob", "Alice"], ["hello there", "hi", "how are you"],
      ["16/01/23", "17/01/23", "18/01/23"],
      ["09:15", "22:05", "08:00"]⟩ : Extracted).dates.length
        = (allMessages exampleDocC1).length ∧
    (⟨["Alice", "Bob", "Alice"], ["hello there", "hi", "how are you"],
      ["16/01/23", "17/01/23", "18/01/23"],
      ["09:15", "22:05", "08:00"]⟩ : Extracted).times.length
        = (allMessages exampleDocC1).length :=
  extract_output_lengths exampleDocC1
    ⟨["Alice", "Bob", "Alice"], ["hello there", "hi", "how are you"],
     ["16/01/23", "17/01/23", "18/01/23"], ["09:15", "22:05", "08:00"]⟩
    (by decide)

/-- C2: loading a cache name right after saving a sequence under that
name returns a sequence equal to the saved one, for any name, any
sequence, and any prior store contents. -/
theorem save_then_load_roundtrip (c : Cache) (data : List String) (name : String) :
    load_pickle name (save_pickle data name c) = some data := by
  simp [load_pickle, save_pickle]

/-- Reduction of the average-messages computation for `unit_time='day'`
once both boundary dates parse: the outcome is determined by the day
difference alone. -/
theorem calc_day_reduces (dates : List String) (total : Nat) (a b : String)
    (da db : DateV) (ha : dates.head? = some a) (hb : dates.getLast? = some b)
    (hpa : strptimeDate a = some da) (hpb : strptimeDate b = some db) :
    calculate_average_messages_per_unit_time dates total "day" =
      (if deltaDays da db = 0 then .divByZero
       else .avg ((total : ℚ) / ((deltaDays da db : Int) : ℚ))) := by
  unfold calculate_average_messages_per_unit_time
  simp only [hb, ha, hpb, hpa]
  simp

/-- Counterexample to C3 as stated: with an empty dates list, the
unsupported unit `'century'` does not produce the validation-message
return — `dates[-1]` raises `IndexError` first, because the function
indexes and parses the dates before checking `unit_time`. -/
theorem century_empty_dates_raises :
    calculate_average_messages_per_unit_time [] 0 "century" = .indexError := rfl

/-- C3 (amended): provided the dates list is non-empty and its first and
last entries parse, every `unit_time` outside
`{day, week, month, year}` makes the function report the validation
message and return without a value, and none of the interval or average
arithmetic is reached. -/
theorem invalid_unit_reports_and_skips (dates : List String) (total : Nat)
    (unit_time : String) (a b : String) (da db : DateV)
    (ha : dates.head? = some a) (hb : dates.getLast? = some b)
    (hpa : strptimeDate a = some da) (hpb : strptimeDate b = some db)
    (hu : unit_time ∉ ["day", "week", "month", "year"]) :
    calculate_average_messages_per_unit_time dates total unit_time = .invalidUnit := by
  unfold calculate_average_messages_per_unit_time
  simp only [hb, ha, hpb, hpa]
  rw [if_neg hu]

/-- Witness for the amended C3: `'century'` on a parseable singleton
dates list yields the validation outcome. -/
theorem invalid_unit_reports_and_skips_witness :
    calculate_average_messages_per_unit_time ["20/01/23"] 5 "century" = .invalidUnit :=
  invalid_unit_reports_and_skips ["20/01/23"] 5 "century" "20/01/23" "20/01/23"
    ⟨2023, 1, 20⟩ ⟨2023, 1, 20⟩ rfl rfl (by decide) (by decide) (by decide)

/-- C4: whenever the first and last entries of a non-empty dates list
parse to the same calendar date, the `'day'` computation divides by a
zero interval and fails with `ZeroDivisionError`; no zero-check guards
the division. -/
theorem day_unit_same_date_div_by_zero (dates : List String) (total : Nat)
    (a b : String) (d : DateV) (ha : dates.head? = some a)
    (hb : dates.getLast? = some b) (hpa : strptimeDate a = some d)
    (hpb : strptimeDate b = some d) :
    calculate_average_messages_per_unit_time dates total "day" = .divByZero := by
  rw [calc_day_reduces dates total a b d d ha hb hpa hpb]
  simp [deltaDays]

/-- Witness for C4 on a singleton dates list, whose first and last entry
coincide. -/
theorem day_unit_same_date_div_by_zero_witness :
    calculate_average_messages_per_unit_time ["15/03/23"] 7 "day" = .divByZero :=
  day_unit_same_date_div_by_zero ["15/03/23"] 7 "15/03/23" "15/03/23"
    ⟨2023, 3, 15⟩ rfl rfl (by decide) (by decide)

/-- Counterexample to C5 as stated: a dataset whose only message is a
single space has average words per message equal to zero, yet that
message text is not empty — `split()` also yields no tokens on
whitespace-only text. -/
theorem avg_words_whitespace_counterexample :
    calculate_average_words_per_message [" "] 1 = some 0 ∧ (" " : String) ≠ "" :=
  ⟨by norm_num [calculate_average_words_per_message, pySplit, pySplitAux, pyIsSpace],
   by decide⟩

/-- C5 (amended): for every dataset with `total_msgs > 0` the average
words per message is non-negative, and it equals zero exactly when every
message text splits to no whitespace-delimited tokens (empty or
whitespace-only). -/
theorem avg_words_nonneg_zero_iff_no_tokens (msgs : List String) (total : Nat)
    (h : 0 < total) :
    ∃ q : ℚ, calculate_average_words_per_message msgs total = some q ∧
      0 ≤ q ∧ (q = 0 ↔ ∀ m ∈ msgs, pySplit m = []) := by
  have hne : total ≠ 0 := h.ne'
  have hq : (total : ℚ) ≠ 0 := Nat.cast_ne_zero.mpr hne
  refine ⟨((msgs.map (fun m => (pySplit m).length)).sum : ℚ) / (total : ℚ), ?_, ?_, ?_⟩
  · simp [calculate_average_words_per_message, hne]
  · positivity
  · rw [div_eq_zero_iff, or_iff_left hq, Nat.cast_eq_zero, List.sum_eq_zero_iff]
    constructor
    · intro hall m hm
      exact List.length_eq_zero.mp (hall _ (List.mem_map_of_mem _ hm))
    · intro hall x hx
      obtain ⟨m, hm, rfl⟩ := List.mem_map.mp hx
      simp [hall m hm]

/-- Witness for the amended C5 on a two-message denominator. -/
theorem avg_words_nonneg_zero_iff_no_tokens_witness :
    ∃ q : ℚ, calculate_average_words_per_message ["hello world"] 2 = some q ∧
      0 ≤ q ∧ (q = 0 ↔ ∀ m ∈ (["hello world"] : List String), pySplit m = []) :=
  avg_words_nonneg_zero_iff_no_tokens ["hello world"] 2 (by decide)

/-- C6: on `dates=["20/01/23","10/01/23"]` with `unit_time='day'` and
`total_msgs=2`, the two boundary dates parse, the elapsed-days interval
is `10`, and the reported average is `2 / 10 = 1/5 = 0.20` messages per
day. -/
theorem avg_messages_per_day_example :
    strptimeDate "20/01/23" = some ⟨2023, 1, 20⟩ ∧
    strptimeDate "10/01/23" = some ⟨2023, 1, 10⟩ ∧
    deltaDays ⟨2023, 1, 20⟩ ⟨2023, 1, 10⟩ = 10 ∧
    calculate_average_messages_per_unit_time ["20/01/23", "10/01/23"] 2 "day"
      = .avg (1/5) := by
  refine ⟨by decide, by decide, by decide, ?_⟩
  rw [calc_day_reduces ["20/01/23", "10/01/23"] 2 "20/01/23" "10/01/23"
    ⟨2023, 1, 20⟩ ⟨2023, 1, 10⟩ rfl rfl (by decide) (by decide)]
  have h10 : deltaDays ⟨2023, 1, 20⟩ ⟨2023, 1, 10⟩ = 10 := by decide
  rw [h10]
  norm_num

/-- Distribution of the percentage projection over a list sum: the third
components of the per-user report rows sum to the summed counts over `T`
times 100. -/
theorem sum_map_pct (T : ℚ) (users : List String) :
    ∀ l : List String,
      ((l.map (fun u => (u, users.count u, ((users.count u : ℚ) / T) * 100))).map
        (fun r => r.2.2)).sum
      = (((l.map (fun u => users.count u)).sum : ℕ) : ℚ) / T * 100 := by
  intro l
  induction l with
  | nil => simp
  | cons x xs ih =>
      simp only [List.map_cons, List.sum_cons, ih, Nat.cast_add]
      ring

/-- C7: when the senders list has length `total_msgs > 0` (as it does for
the extracted sender sequence), the per-user percentages
`count / total_msgs * 100` over all unique senders sum exactly to 100 in
rational arithmetic. -/
theorem per_user_percentages_sum_100 (users : List String) (h : users ≠ []) :
    ∃ res, calculate_total_messages_per_user users users.length = some res ∧
      (res.map (fun r => r.2.2)).sum = 100 := by
  have hlen : users.length ≠ 0 := fun hh => h (List.length_eq_zero.mp hh)
  have hq : (users.length : ℚ) ≠ 0 := Nat.cast_ne_zero.mpr hlen
  refine ⟨(List.insertionSort (fun a b => strLe a b = true) users.dedup).map
      (fun u => (u, users.count u, ((users.count u : ℚ) / (users.length : ℚ)) * 100)),
    by simp [calculate_total_messages_per_user, h], ?_⟩
  rw [sum_map_pct (users.length : ℚ) users
    (List.insertionSort (fun a b => strLe a b = true) users.dedup)]
  have hperm := (List.perm_insertionSort (fun a b => strLe a b = true) users.dedup).map
    (fun u => users.count u)
  rw [hperm.sum_eq, List.sum_map_count_dedup_eq_length, div_self hq, one_mul]

/-- Witness for C7 on a three-message, two-sender list. -/
theorem per_user_percentages_sum_100_witness :
    ∃ res, calculate_total_messages_per_user ["Bob", "Alice", "Bob"]
        (["Bob", "Alice", "Bob"] : List String).length = some res ∧
      (res.map (fun r => r.2.2)).sum = 100 :=
  per_user_percentages_sum_100 ["Bob", "Alice", "Bob"] (by decide)

/-- C8: on `times=["09:15","09:45","10:05"]` the renderer's hour
bucketing (lexicographic sort, then grouping on the first two
characters) yields the bucket `"09"` with count 2 followed by `"10"`
with count 1. -/
theorem hour_buckets_example :
    plot_total_msgs_per_hour ["09:15", "09:45", "10:05"]
      = [("09", 2), ("10", 1)] := by decide

/-- C9: with the re-extract flag set, the constructor runs the extractor
twice and keeps only the second result; since extraction is a function of
the document, the in-memory dataset and all four persisted cache entries
equal the extraction result. -/
theorem init_get_data_extracts_and_caches (doc : Document) (c : Cache)
    (e : Extracted) (h : extract_data_from_html_file doc = some e) :
    ∃ cc : Cache, initPipeline doc true c = some (⟨e.toLists, e.users.length⟩, cc) ∧
      load_pickle "pickles/senders.pickle" cc = some e.users ∧
      load_pickle "pickles/messages.pickle" cc = some e.msgs ∧
      load_pickle "pickles/dates.pickle" cc = some e.dates ∧
      load_pickle "pickles/times.pickle" cc = some e.times := by
  unfold initPipeline
  rw [h]
  exact ⟨_, rfl, rfl, rfl, rfl, rfl⟩

/-- Witness for C9 on a one-message document over an empty store. -/
theorem init_get_data_extracts_and_caches_witness :
    ∃ cc : Cache, initPipeline exampleDocC9 true emptyCache
        = some (⟨(⟨["Alice"], ["hi there"], ["02/02/23"], ["10:30"]⟩ : Extracted).toLists,
                 (["Alice"] : List String).length⟩, cc) ∧
      load_pickle "pickles/senders.pickle" cc = some ["Alice"] ∧
      load_pickle "pickles/messages.pickle" cc = some ["hi there"] ∧
      load_pickle "pickles/dates.pickle" cc = some ["02/02/23"] ∧
      load_pickle "pickles/times.pickle" cc = some ["10:30"] :=
  init_get_data_extracts_and_caches exampleDocC9 emptyCache
    ⟨["Alice"], ["hi there"], ["02/02/23"], ["10:30"]⟩ (by decide)

/-- C10: in cache-load mode the constructor accepts any four stored
lists without comparing their lengths, sets `total_msgs` to the length
of the senders list alone, and the average-words aggregate then divides
by that senders length, whatever the length of the messages list. -/
theorem init_cache_mode_no_length_check (doc : Document) (c : Cache)
    (s m d t : List String)
    (hs : c "pickles/senders.pickle" = some s)
    (hm : c "pickles/messages.pickle" = some m)
    (hd : c "pickles/dates.pickle" = some d)
    (ht : c "pickles/times.pickle" = some t) :
    initPipeline doc false c = some (⟨[s, m, d, t], s.length⟩, c) ∧
    (s.length ≠ 0 → calculate_average_words_per_message m s.length
      = some (((m.map (fun x => (pySplit x).length)).sum : ℚ) / (s.length : ℚ))) := by
  constructor
  · unfold initPipeline
    simp only [hs, hm, hd, ht]
    simp
  · intro hzero
    simp [calculate_average_words_per_message, hzero]

/-- Witness for C10: a store whose four lists have lengths 1, 2, 0 and 3
is loaded unchecked and `total_msgs` becomes 1. -/
theorem init_cache_mode_no_length_check_witness :
    initPipeline [] false cacheC10
        = some (⟨[["A"], ["one two", "three"], [], ["09:15", "10:20", "11:00"]],
                 (["A"] : List String).length⟩, cacheC10) ∧
    ((["A"] : List String).length ≠ 0 →
      calculate_average_words_per_message ["one two", "three"]
          (["A"] : List String).length
        = some (((["one two", "three"].map (fun x => (pySplit x).length)).sum : ℚ)
            / ((["A"] : List String).length : ℚ))) :=
  init_cache_mode_no_length_check [] cacheC10 ["A"] ["one two", "three"] []
    ["09:15", "10:20", "11:00"] rfl rfl rfl rfl

end FBMsg
